import Mathlib

deriving instance DecidableEq for Except

/-!
Verification development for the bullet-rust-sdk trading client library.

The Rust sources are shallowly embedded: pure functions become Lean
functions, bytes become `List Nat` (each entry a byte value), machine
integers become `Nat` with explicit `% 2 ^ w` where the source truncates,
and fallible code returns `Except`.  External collaborators (the ed25519
signature primitive, the borsh byte layout of the exchange-interface
types) that live outside this repository are modelled from the spec, as
marked on each definition.
-/

namespace Bullet

/-! ## Byte-level helpers -/

/-- Little-endian byte decomposition: `leBytes k n` is the `k`-byte
little-endian encoding of `n` (truncating above `2 ^ (8 * k)`), as borsh
lays out fixed-width unsigned integers. -/
def leBytes : Nat → Nat → List Nat
  | 0, _ => []
  | k + 1, n => (n % 256) :: leBytes k (n / 256)

/-! ## Transaction data model (src/lib.rs re-exports, src/transactions.rs)

`CallMessage` is `bullet_exchange_interface::message::CallMessage`, an
external crate.  Modelled from the spec: the domain instruction is opaque
to the SDK and only its deterministic borsh byte string matters to the
signing pipeline, so it is represented by those bytes. -/

/-- Modelled from the spec: the external `CallMessage` domain instruction,
represented by its canonical borsh encoding bytes ("deterministic binary
encoding of transaction structures"). -/
structure CallMessage where
  bytes : List Nat
  deriving DecidableEq

/-- `RuntimeCall` envelope; the SDK always wraps a call as
`RuntimeCall::Exchange(call_msg)` (src/transactions.rs line 29). -/
inductive RuntimeCall
  | Exchange (msg : CallMessage)
  deriving DecidableEq

/-- `UniquenessData::Generation(timestamp)` (src/transactions.rs line 34). -/
inductive UniquenessData
  | Generation (t : Nat)
  deriving DecidableEq

/-- `TxDetails` (src/transactions.rs lines 35-40): chain id (u64), max fee
(u128), optional gas limit, priority fee bips. -/
structure TxDetails where
  chain_id : Nat
  max_fee : Nat
  gas_limit : Option Nat
  max_priority_fee_bips : Nat
  deriving DecidableEq

/-- `UnsignedTransaction` (external type, fields fixed by src/transactions.rs
lines 41-45). -/
structure UnsignedTransaction where
  runtime_call : RuntimeCall
  uniqueness : UniquenessData
  details : TxDetails
  deriving DecidableEq

/-- `Version0` payload of a signed transaction (src/transactions.rs
lines 80-86). -/
structure Version0 where
  runtime_call : RuntimeCall
  uniqueness : UniquenessData
  details : TxDetails
  pub_key : List Nat
  signature : List Nat
  deriving DecidableEq

/-- `SignedTransaction` versioned sum type; current variant `V0`. -/
inductive SignedTransaction
  | V0 (v : Version0)
  deriving DecidableEq

/-! ## Borsh encoding of the unsigned transaction

Modelled from the spec: the borsh layout of the external
exchange-interface types ("canonical, byte-stable binary encoding";
enum variants as a tag byte followed by the payload, integers
little-endian, `Option` as a presence byte). -/

/-- Modelled from the spec: borsh bytes of `RuntimeCall`. -/
def borshRuntimeCall : RuntimeCall → List Nat
  | .Exchange m => 0 :: m.bytes

/-- Modelled from the spec: borsh bytes of `UniquenessData`. -/
def borshUniqueness : UniquenessData → List Nat
  | .Generation t => 0 :: leBytes 8 t

/-- Modelled from the spec: borsh bytes of an `Option` u64. -/
def borshOptionU64 : Option Nat → List Nat
  | none => [0]
  | some n => 1 :: leBytes 8 n

/-- Modelled from the spec: borsh bytes of `TxDetails`. -/
def borshDetails (d : TxDetails) : List Nat :=
  leBytes 8 d.chain_id ++ leBytes 16 d.max_fee ++
    borshOptionU64 d.gas_limit ++ leBytes 2 d.max_priority_fee_bips

/-- `borsh::to_vec(&tx)` for the unsigned transaction
(src/transactions.rs line 62): field-by-field concatenation. -/
def borshUnsigned (tx : UnsignedTransaction) : List Nat :=
  borshRuntimeCall tx.runtime_call ++ borshUniqueness tx.uniqueness ++
    borshDetails tx.details

/-! ## Signature scheme and keypair (src/keypair.rs)

The keypair delegates to `ed25519_dalek`, an external crate.  Modelled
from the spec: the scheme "owns exactly one 32-byte private scalar;
derives a 32-byte public key and produces 64-byte signatures over
arbitrary byte strings", and a produced signature verifies over the
signed bytes under the derived public key. -/

/-- Modelled from the spec: an asymmetric signature scheme with 32-byte
public keys and 64-byte signatures whose produced signatures verify. -/
structure SigScheme where
  sign : List Nat → List Nat → List Nat
  pubkey : List Nat → List Nat
  verify : List Nat → List Nat → List Nat → Bool
  sign_length : ∀ sk msg, (sign sk msg).length = 64
  pubkey_length : ∀ sk, (pubkey sk).length = 32
  sign_verifies : ∀ sk msg, verify (pubkey sk) msg (sign sk msg) = true

/-- Message binding (the standard Ed25519 verification property the
spec's domain-separation requirement rests on): one signature cannot
verify under the same public key for two different messages. -/
def Binding (S : SigScheme) : Prop :=
  ∀ pk m m' sig, S.verify pk m sig = true → S.verify pk m' sig = true → m = m'

/-- `Keypair` (src/keypair.rs): owns the 32-byte secret. -/
structure Keypair where
  secret : List Nat
  deriving DecidableEq

/-- `Keypair::sign` (src/keypair.rs lines 48-52). -/
def Keypair.sign (S : SigScheme) (kp : Keypair) (message : List Nat) : List Nat :=
  S.sign kp.secret message

/-- `Keypair::public_key` (src/keypair.rs lines 55-57). -/
def Keypair.public_key (S : SigScheme) (kp : Keypair) : List Nat :=
  S.pubkey kp.secret

/-! ## SDK errors (src/errors.rs) -/

/-- The `SDKError` variants reached by the embedded operations
(src/errors.rs). -/
inductive SDKError
  | SystemTimeError
  | SerializationError (msg : String)
  | InvalidSignatureLength (n : Nat)
  | InvalidPublicKeyLength (n : Nat)
  | InvalidChainHash (msg : String)
  | InvalidSchemaResponse (field : String)
  deriving DecidableEq

/-! ## build_transaction and sign_transaction (src/transactions.rs) -/

/-- `TradingApi::build_transaction` (src/transactions.rs lines 24-46).
The wall-clock read `SystemTime::now().duration_since(UNIX_EPOCH)` is an
explicit input: `none` models a clock before the UNIX epoch (the `Err`
of `duration_since`), `some nanos` the duration since the epoch in
nanoseconds.  `as_millis() as u64` is whole milliseconds truncated to
64 bits. -/
def build_transaction (chain_id : Nat) (clock : Option Nat)
    (call_msg : CallMessage) (max_fee : Nat) :
    Except SDKError UnsignedTransaction :=
  match clock with
  | none => .error .SystemTimeError
  | some nanos =>
    let timestamp := (nanos / 1000000) % 2 ^ 64
    .ok { runtime_call := .Exchange call_msg
          uniqueness := .Generation timestamp
          details := { chain_id := chain_id
                       max_fee := max_fee
                       gas_limit := none
                       max_priority_fee_bips := 0 } }

/-- `TradingApi::sign_transaction` (src/transactions.rs lines 56-87):
borsh-encode the unsigned transaction, append the 32-byte chain hash as
domain separator, sign, then check the 64/32-byte length conversions and
assemble `SignedTransaction::V0`.  (The borsh model is total, matching
`borsh::to_vec` on these types, so no `SerializationError` arises.) -/
def sign_transaction (S : SigScheme) (chain_hash : List Nat)
    (tx : UnsignedTransaction) (keypair : Keypair) :
    Except SDKError SignedTransaction :=
  let data := borshUnsigned tx ++ chain_hash
  let sig_bytes := keypair.sign S data
  if sig_bytes.length = 64 then
    let pk_bytes := keypair.public_key S
    if pk_bytes.length = 32 then
      .ok (.V0 { runtime_call := tx.runtime_call
                 uniqueness := tx.uniqueness
                 details := tx.details
                 pub_key := pk_bytes
                 signature := sig_bytes })
    else .error (.InvalidPublicKeyLength pk_bytes.length)
  else .error (.InvalidSignatureLength sig_bytes.length)

/-! ## Chain-hash parsing in TradingApi::new (src/client.rs lines 61-71) -/

/-- A hex digit's value, as `hex::decode` accepts them. -/
def hexVal? (c : Char) : Option Nat :=
  if '0' ≤ c ∧ c ≤ '9' then some (c.toNat - '0'.toNat)
  else if 'a' ≤ c ∧ c ≤ 'f' then some (c.toNat - 'a'.toNat + 10)
  else if 'A' ≤ c ∧ c ≤ 'F' then some (c.toNat - 'A'.toNat + 10)
  else none

/-- `hex::decode` on a character list: fails on odd length or any
non-hex character. -/
def hexDecodeList : List Char → Option (List Nat)
  | [] => some []
  | [_] => none
  | a :: b :: rest => do
    let hi ← hexVal? a
    let lo ← hexVal? b
    let tl ← hexDecodeList rest
    pure ((hi * 16 + lo) :: tl)

/-- `hex::decode` on a string. -/
def hexDecode (s : String) : Option (List Nat) :=
  hexDecodeList s.data

/-- `str::replace("0x", "")` specialised to the pattern actually used by
`TradingApi::new`: one left-to-right pass removing every non-overlapping
occurrence of the two characters `0x`. -/
def remove0x : List Char → List Char
  | '0' :: 'x' :: rest => remove0x rest
  | c :: rest => c :: remove0x rest
  | [] => []

/-- The chain-hash parsing step of `TradingApi::new` (src/client.rs lines
66-71): strip every `"0x"` occurrence, hex-decode, and require exactly
32 bytes; both failures surface as `InvalidChainHash`. -/
def parse_chain_hash (chain_hash_hex : String) : Except SDKError (List Nat) :=
  match hexDecodeList (remove0x chain_hash_hex.data) with
  | none => .error (.InvalidChainHash "hex decode failed")
  | some bs =>
    if bs.length = 32 then .ok bs
    else .error (.InvalidChainHash "expected 32 bytes")

/-- Whether an outcome is the `InvalidChainHash` rejection. -/
def isChainHashErr : Except SDKError (List Nat) → Bool
  | .error (.InvalidChainHash _) => true
  | _ => false

/-! ## A concrete signature scheme witnessing the scheme laws

`enc` injectively packs a byte string into one natural number; the toy
scheme puts that number into the first of 64 signature slots.  It
witnesses that the `SigScheme` laws and `Binding` are satisfiable. -/

/-- Injective packing of a list of naturals into one natural:
`enc (a :: l) = 2 ^ a * (2 * enc l + 1)`. -/
def enc : List Nat → Nat
  | [] => 0
  | a :: l => 2 ^ a * (2 * enc l + 1)

/-- A concrete `SigScheme` instance: the signature is `enc` of the message
followed by 63 zero slots; verification recomputes it. -/
def toyScheme : SigScheme where
  sign _ m := enc m :: List.replicate 63 0
  pubkey _ := List.replicate 32 0
  verify _ m sig := decide (sig = enc m :: List.replicate 63 0)
  sign_length := by intro sk msg; simp
  pubkey_length := by intro sk; simp
  sign_verifies := by intro sk msg; simp

/-! ## Subscription topics (src/ws/topics.rs) -/

/-- Orderbook depth levels (src/ws/topics.rs lines 29-38). -/
inductive OrderbookDepth
  | D5
  | D10
  | D20
  deriving DecidableEq

/-- `OrderbookDepth::as_str` (src/ws/topics.rs lines 40-48). -/
def OrderbookDepth.asStr : OrderbookDepth → String
  | .D5 => "5"
  | .D10 => "10"
  | .D20 => "20"

/-- Kline intervals (src/ws/topics.rs lines 51-67). -/
inductive KlineInterval
  | M1
  | M5
  | M15
  | M30
  | H1
  | H4
  | D1
  deriving DecidableEq

/-- `KlineInterval::as_str` (src/ws/topics.rs lines 69-81). -/
def KlineInterval.asStr : KlineInterval → String
  | .M1 => "1m"
  | .M5 => "5m"
  | .M15 => "15m"
  | .M30 => "30m"
  | .H1 => "1h"
  | .H4 => "4h"
  | .D1 => "1d"

/-- `Topic` (src/ws/topics.rs lines 102-139). -/
inductive Topic
  | AggTrade (symbol : String)
  | Depth (symbol : String) (depth : OrderbookDepth)
  | BookTicker (symbol : String)
  | MarkPrice (symbol : String)
  | Kline (symbol : String) (interval : KlineInterval)
  | ForceOrder (symbol : String)
  | AllTickers
  | AllMarkPrices
  | AllBookTickers
  | AllForceOrders
  deriving DecidableEq

/-- `Topic::depth` constructor (src/ws/topics.rs lines 168-173). -/
def Topic.depth (symbol : String) (d : OrderbookDepth) : Topic :=
  .Depth symbol d

/-- `Topic::kline` constructor (src/ws/topics.rs lines 217-222). -/
def Topic.kline (symbol : String) (i : KlineInterval) : Topic :=
  .Kline symbol i

/-- `Topic::all_tickers` constructor (src/ws/topics.rs lines 250-252). -/
def Topic.allTickers : Topic :=
  .AllTickers

/-- The canonical wire string of a topic: the `fmt::Display`
implementation (src/ws/topics.rs lines 297-312). -/
def Topic.displayStr : Topic → String
  | .AggTrade symbol => symbol ++ "@aggTrade"
  | .Depth symbol depth => symbol ++ ("@depth" ++ depth.asStr)
  | .BookTicker symbol => symbol ++ "@bookTicker"
  | .MarkPrice symbol => symbol ++ "@markPrice"
  | .Kline symbol interval => symbol ++ ("@kline_" ++ interval.asStr)
  | .ForceOrder symbol => symbol ++ "@forceOrder"
  | .AllTickers => "!ticker@arr"
  | .AllMarkPrices => "!markPrice@arr"
  | .AllBookTickers => "!bookTicker@arr"
  | .AllForceOrders => "!forceOrder@arr"

/-- Reversed character list of the canonical string; proof device for
injectivity (reversing turns the fixed stream suffixes into fixed
prefixes). -/
def canonR (t : Topic) : List Char :=
  (Topic.displayStr t).data.reverse

/-- Reversed characters of a string. -/
def rstr (s : String) : List Char :=
  s.data.reverse

/-- Reversed suffix chars of the aggTrade stream. -/
def rAgg : List Char := "@aggTrade".data.reverse

/-- Reversed suffix chars of a depth stream at a given level. -/
def rDepthSuf (d : OrderbookDepth) : List Char :=
  ("@depth" ++ d.asStr).data.reverse

/-- Reversed suffix chars of the bookTicker stream. -/
def rBook : List Char := "@bookTicker".data.reverse

/-- Reversed suffix chars of the markPrice stream. -/
def rMark : List Char := "@markPrice".data.reverse

/-- Reversed suffix chars of a kline stream at a given interval. -/
def rKlineSuf (i : KlineInterval) : List Char :=
  ("@kline_" ++ i.asStr).data.reverse

/-- Reversed suffix chars of the forceOrder stream. -/
def rForce : List Char := "@forceOrder".data.reverse

/-- Reversed chars of the all-tickers constant topic. -/
def rAllT : List Char := "!ticker@arr".data.reverse

/-- Reversed chars of the all-mark-prices constant topic. -/
def rAllM : List Char := "!markPrice@arr".data.reverse

/-- Reversed chars of the all-book-tickers constant topic. -/
def rAllB : List Char := "!bookTicker@arr".data.reverse

/-- Reversed chars of the all-force-orders constant topic. -/
def rAllF : List Char := "!forceOrder@arr".data.reverse

/-- Boolean list-prefix test used by the injectivity argument. -/
def isPref : List Char → List Char → Bool
  | [], _ => true
  | _ :: _, [] => false
  | a :: p, b :: l => a = b && isPref p l

/-! ## WebSocket server messages (src/ws/models.rs)

The payload structs (`StatusMessage`, `PongMessage`, `ErrorMessage`,
`DepthUpdate`, `AggTradeMessage`, `BookTickerMessage`,
`MarkPriceMessage`, `ForceOrderMessage`, `OrderUpdateMessage`,
`RequestId`) come from the external `bullet_ws_interface` crate.
Modelled from the spec (section 6 wire protocol) and the shapes
exercised by this repository's own tests in src/ws/models.rs: tagged
messages carry `e` and `E`; market-data messages carry their documented
field sets; `id` is an optional correlation token.  Unknown JSON fields
are ignored, as serde does by default. -/

/-- A JSON value, as the wire frames carry. -/
inductive Json
  | obj (fields : List (String × Json))
  | arr (elems : List Json)
  | str (s : String)
  | num (n : Int)
  | bool (b : Bool)
  | null

/-- Look up a key of a JSON object. -/
def Json.get? : Json → String → Option Json
  | .obj fields, k => fields.lookup k
  | _, _ => none

/-- Require a string field. -/
def Json.getStr? (j : Json) (k : String) : Option String :=
  match j.get? k with
  | some (.str s) => some s
  | _ => none

/-- Require a non-negative integer field (the u64 wire fields). -/
def Json.getNat? (j : Json) (k : String) : Option Nat :=
  match j.get? k with
  | some (.num n) => if 0 ≤ n then some n.toNat else none
  | _ => none

/-- Require an integer field (error codes may be negative). -/
def Json.getInt? (j : Json) (k : String) : Option Int :=
  match j.get? k with
  | some (.num n) => some n
  | _ => none

/-- Require a boolean field. -/
def Json.getBool? (j : Json) (k : String) : Option Bool :=
  match j.get? k with
  | some (.bool b) => some b
  | _ => none

/-- An optional `id` correlation field: absent or `null` is `none`, a
non-negative number is `some`, anything else fails the whole parse. -/
def Json.getOptId? (j : Json) (k : String) : Option (Option Nat) :=
  match j.get? k with
  | none => some none
  | some .null => some none
  | some (.num n) => if 0 ≤ n then some (some n.toNat) else none
  | some _ => none

/-- An array field of string pairs (depth bid/ask levels). -/
def Json.getPairList? (j : Json) (k : String) : Option (List (String × String)) :=
  match j.get? k with
  | some (.arr elems) =>
    elems.mapM fun e =>
      match e with
      | .arr [.str p, .str q] => some (p, q)
      | _ => none
  | _ => none

/-- An array field of strings. -/
def Json.getStrList? (j : Json) (k : String) : Option (List String) :=
  match j.get? k with
  | some (.arr elems) =>
    elems.mapM fun e =>
      match e with
      | .str s => some s
      | _ => none
  | _ => none

/-- `RequestId`: the opaque numeric correlation token. -/
abbrev RequestId := Nat

/-- Modelled from the spec: `StatusMessage` — `E`, `status`, `clientId`. -/
structure StatusMessage where
  event_time : Nat
  status : String
  client_id : String
  deriving DecidableEq

/-- Modelled from the spec: `PongMessage` — optional `id`, `E`. -/
structure PongMessage where
  id : Option RequestId
  event_time : Nat
  deriving DecidableEq

/-- Modelled from the spec: the error payload `{code, msg}`. -/
structure ErrorPayload where
  code : Int
  msg : String
  deriving DecidableEq

/-- Modelled from the spec: `ErrorMessage` — optional `id`, `E`, `error`. -/
structure ErrorMessage where
  id : Option RequestId
  event_time : Nat
  error : ErrorPayload
  deriving DecidableEq

/-- `MethodResult` (src/ws/models.rs lines 19-27): optional `id`, `E`,
string `result`. -/
structure MethodResult where
  id : Option RequestId
  event_time : Nat
  result : String
  deriving DecidableEq

/-- `ListSubscriptionsResult` (src/ws/models.rs lines 29-38): optional
`id`, `E`, string-array `result`. -/
structure ListSubscriptionsResult where
  id : Option RequestId
  event_time : Nat
  result : List String
  deriving DecidableEq

/-- Modelled from the spec: `DepthUpdate` — the `depthUpdate` shape of
the repository's tests (`E,T,s,U,u,pu,b,a,mt`). -/
structure DepthUpdate where
  event_type : String
  event_time : Nat
  transaction_time : Nat
  symbol : String
  first_update_id : Nat
  final_update_id : Nat
  prev_final_update_id : Nat
  bids : List (String × String)
  asks : List (String × String)
  match_type : String
  deriving DecidableEq

/-- Modelled from the spec: `AggTradeMessage` — the `aggTrade` shape of
the repository's tests. -/
structure AggTradeMessage where
  event_type : String
  event_time : Nat
  symbol : String
  agg_trade_id : Nat
  price : String
  quantity : String
  first_trade_id : Nat
  last_trade_id : Nat
  trade_time : Nat
  is_buyer_maker : Bool
  deriving DecidableEq

/-- Modelled from the spec: `BookTickerMessage` — the `bookTicker` shape
of the repository's tests. -/
structure BookTickerMessage where
  event_type : String
  update_id : Nat
  event_time : Nat
  transaction_time : Nat
  symbol : String
  best_bid_price : String
  best_bid_qty : String
  best_ask_price : String
  best_ask_qty : String
  match_type : String
  deriving DecidableEq

/-- Modelled from the spec: `MarkPriceMessage` — the `markPriceUpdate`
shape of the repository's tests (`E,s,p,i,r`). -/
structure MarkPriceMessage where
  event_type : String
  event_time : Nat
  symbol : String
  mark_price : String
  index_price : String
  funding_rate : String
  deriving DecidableEq

/-- Modelled from the spec: the inner order of a `liquidation` message. -/
structure ForceOrderInner where
  symbol : String
  side : String
  order_type : String
  time_in_force : String
  price : String
  avg_price : String
  order_status : String
  last_filled_qty : String
  trade_time : Nat
  deriving DecidableEq

/-- Modelled from the spec: `ForceOrderMessage` — `E` and the inner
order object `o`. -/
structure ForceOrderMessage where
  event_type : String
  event_time : Nat
  order : ForceOrderInner
  deriving DecidableEq

/-- Modelled from the spec: the inner order of an `orderTradeUpdate`. -/
structure OrderUpdateInner where
  symbol : String
  order_id : Nat
  order_status : String
  execution_type : String
  trade_time : Nat
  side : String
  order_type : String
  time_in_force : String
  price : String
  quantity : String
  deriving DecidableEq

/-- Modelled from the spec: `OrderUpdateMessage` — `E` and the inner
order object `o`. -/
structure OrderUpdateMessage where
  event_type : String
  event_time : Nat
  order : OrderUpdateInner
  deriving DecidableEq

/-- `TaggedMessage` (src/ws/models.rs lines 41-50): internally tagged on
the `e` field, snake_case variant names. -/
inductive TaggedMessage
  | Status (m : StatusMessage)
  | Pong (m : PongMessage)
  | Error (m : ErrorMessage)
  | Subscribe (m : MethodResult)
  | Unsubscribe (m : MethodResult)
  | ListSubscriptions (m : ListSubscriptionsResult)
  deriving DecidableEq

/-- `ServerMessage` (src/ws/models.rs lines 56-76): untagged, variants
tried in declaration order, with `Unknown` holding (parse error, raw
text) and never produced by deserialization itself. -/
inductive ServerMessage
  | Tagged (m : TaggedMessage)
  | DepthUpdate (m : DepthUpdate)
  | AggTrade (m : AggTradeMessage)
  | BookTicker (m : BookTickerMessage)
  | MarkPrice (m : MarkPriceMessage)
  | ForceOrder (m : ForceOrderMessage)
  | OrderUpdate (m : OrderUpdateMessage)
  | Error (m : ErrorMessage)
  | Unknown (err : String) (raw : String)
  deriving DecidableEq

/-- Deserialize `StatusMessage` from the fields beside the tag. -/
def parseStatus (j : Json) : Option StatusMessage := do
  let e ← j.getNat? "E"
  let status ← j.getStr? "status"
  let cid ← j.getStr? "clientId"
  pure { event_time := e, status := status, client_id := cid }

/-- Deserialize `PongMessage`. -/
def parsePong (j : Json) : Option PongMessage := do
  let id ← j.getOptId? "id"
  let e ← j.getNat? "E"
  pure { id := id, event_time := e }

/-- Deserialize the `{code, msg}` error payload. -/
def parseErrPayload (j : Json) : Option ErrorPayload := do
  let code ← j.getInt? "code"
  let msg ← j.getStr? "msg"
  pure { code := code, msg := msg }

/-- Deserialize `ErrorMessage`. -/
def parseErrMsg (j : Json) : Option ErrorMessage := do
  let id ← j.getOptId? "id"
  let e ← j.getNat? "E"
  let errJ ← j.get? "error"
  let err ← parseErrPayload errJ
  pure { id := id, event_time := e, error := err }

/-- Deserialize `MethodResult`. -/
def parseMethodResult (j : Json) : Option MethodResult := do
  let id ← j.getOptId? "id"
  let e ← j.getNat? "E"
  let r ← j.getStr? "result"
  pure { id := id, event_time := e, result := r }

/-- Deserialize `ListSubscriptionsResult`. -/
def parseListResult (j : Json) : Option ListSubscriptionsResult := do
  let id ← j.getOptId? "id"
  let e ← j.getNat? "E"
  let r ← j.getStrList? "result"
  pure { id := id, event_time := e, result := r }

/-- Deserialize `TaggedMessage`: dispatch on the `e` tag as serde's
internally-tagged representation does (src/ws/models.rs lines 41-50). -/
def parseTagged (j : Json) : Option TaggedMessage := do
  let tag ← j.getStr? "e"
  match tag with
  | "status" => (parseStatus j).map .Status
  | "pong" => (parsePong j).map .Pong
  | "error" => (parseErrMsg j).map .Error
  | "subscribe" => (parseMethodResult j).map .Subscribe
  | "unsubscribe" => (parseMethodResult j).map .Unsubscribe
  | "list_subscriptions" => (parseListResult j).map .ListSubscriptions
  | _ => none

/-- Deserialize `DepthUpdate`. -/
def parseDepth (j : Json) : Option DepthUpdate := do
  let et ← j.getStr? "e"
  let e ← j.getNat? "E"
  let t ← j.getNat? "T"
  let s ← j.getStr? "s"
  let u1 ← j.getNat? "U"
  let u2 ← j.getNat? "u"
  let pu ← j.getNat? "pu"
  let b ← j.getPairList? "b"
  let a ← j.getPairList? "a"
  let mt ← j.getStr? "mt"
  pure { event_type := et, event_time := e, transaction_time := t, symbol := s,
         first_update_id := u1, final_update_id := u2, prev_final_update_id := pu,
         bids := b, asks := a, match_type := mt }

/-- Deserialize `AggTradeMessage`. -/
def parseAgg (j : Json) : Option AggTradeMessage := do
  let et ← j.getStr? "e"
  let e ← j.getNat? "E"
  let s ← j.getStr? "s"
  let a ← j.getNat? "a"
  let p ← j.getStr? "p"
  let q ← j.getStr? "q"
  let f ← j.getNat? "f"
  let l ← j.getNat? "l"
  let t ← j.getNat? "T"
  let m ← j.getBool? "m"
  pure { event_type := et, event_time := e, symbol := s, agg_trade_id := a,
         price := p, quantity := q, first_trade_id := f, last_trade_id := l,
         trade_time := t, is_buyer_maker := m }

/-- Deserialize `BookTickerMessage`. -/
def parseBook (j : Json) : Option BookTickerMessage := do
  let et ← j.getStr? "e"
  let u ← j.getNat? "u"
  let e ← j.getNat? "E"
  let t ← j.getNat? "T"
  let s ← j.getStr? "s"
  let bb ← j.getStr? "b"
  let bq ← j.getStr? "B"
  let ab ← j.getStr? "a"
  let aq ← j.getStr? "A"
  let mt ← j.getStr? "mt"
  pure { event_type := et, update_id := u, event_time := e, transaction_time := t,
         symbol := s, best_bid_price := bb, best_bid_qty := bq,
         best_ask_price := ab, best_ask_qty := aq, match_type := mt }

/-- Deserialize `MarkPriceMessage`. -/
def parseMark (j : Json) : Option MarkPriceMessage := do
  let et ← j.getStr? "e"
  let e ← j.getNat? "E"
  let s ← j.getStr? "s"
  let p ← j.getStr? "p"
  let i ← j.getStr? "i"
  let r ← j.getStr? "r"
  pure { event_type := et, event_time := e, symbol := s, mark_price := p,
         index_price := i, funding_rate := r }

/-- Deserialize the inner `liquidation` order. -/
def parseForceInner (j : Json) : Option ForceOrderInner := do
  let s ← j.getStr? "s"
  let sd ← j.getStr? "S"
  let o ← j.getStr? "o"
  let f ← j.getStr? "f"
  let p ← j.getStr? "p"
  let ap ← j.getStr? "ap"
  let x ← j.getStr? "X"
  let l ← j.getStr? "l"
  let t ← j.getNat? "T"
  pure { symbol := s, side := sd, order_type := o, time_in_force := f,
         price := p, avg_price := ap, order_status := x, last_filled_qty := l,
         trade_time := t }

/-- Deserialize `ForceOrderMessage`. -/
def parseForce (j : Json) : Option ForceOrderMessage := do
  let et ← j.getStr? "e"
  let e ← j.getNat? "E"
  let oJ ← j.get? "o"
  let o ← parseForceInner oJ
  pure { event_type := et, event_time := e, order := o }

/-- Deserialize the inner `orderTradeUpdate` order. -/
def parseOrderInner (j : Json) : Option OrderUpdateInner := do
  let s ← j.getStr? "s"
  let i ← j.getNat? "i"
  let xs ← j.getStr? "X"
  let xe ← j.getStr? "x"
  let t ← j.getNat? "T"
  let sd ← j.getStr? "S"
  let o ← j.getStr? "o"
  let f ← j.getStr? "f"
  let p ← j.getStr? "p"
  let q ← j.getStr? "q"
  pure { symbol := s, order_id := i, order_status := xs, execution_type := xe,
         trade_time := t, side := sd, order_type := o, time_in_force := f,
         price := p, quantity := q }

/-- Deserialize `OrderUpdateMessage`. -/
def parseOrderUpd (j : Json) : Option OrderUpdateMessage := do
  let et ← j.getStr? "e"
  let e ← j.getNat? "E"
  let oJ ← j.get? "o"
  let o ← parseOrderInner oJ
  pure { event_type := et, event_time := e, order := o }

/-- Untagged deserialization of `ServerMessage` (src/ws/models.rs lines
56-76): serde tries each variant in declaration order until one matches;
`none` models the overall `from_str` failure (the `Unknown` variant is
`serde(skip)` and never produced here). -/
def classifyJson (j : Json) : Option ServerMessage :=
  match parseTagged j with
  | some t => some (.Tagged t)
  | none =>
  match parseDepth j with
  | some m => some (.DepthUpdate m)
  | none =>
  match parseAgg j with
  | some m => some (.AggTrade m)
  | none =>
  match parseBook j with
  | some m => some (.BookTicker m)
  | none =>
  match parseMark j with
  | some m => some (.MarkPrice m)
  | none =>
  match parseForce j with
  | some m => some (.ForceOrder m)
  | none =>
  match parseOrderUpd j with
  | some m => some (.OrderUpdate m)
  | none => (parseErrMsg j).map .Error

/-- The taxonomy name of a classified message's variant. -/
def variantName : ServerMessage → String
  | .Tagged _ => "tagged"
  | .DepthUpdate _ => "depthUpdate"
  | .AggTrade _ => "aggTrade"
  | .BookTicker _ => "bookTicker"
  | .MarkPrice _ => "markPrice"
  | .ForceOrder _ => "forceOrder"
  | .OrderUpdate _ => "orderTradeUpdate"
  | .Error _ => "error"
  | .Unknown _ _ => "unknown"

/-- The names, in declaration order, of every deserializable
`ServerMessage` variant whose parse succeeds on a frame. -/
def matchedVariants (j : Json) : List String :=
  (if (parseTagged j).isSome then ["tagged"] else []) ++
  (if (parseDepth j).isSome then ["depthUpdate"] else []) ++
  (if (parseAgg j).isSome then ["aggTrade"] else []) ++
  (if (parseBook j).isSome then ["bookTicker"] else []) ++
  (if (parseMark j).isSome then ["markPrice"] else []) ++
  (if (parseForce j).isSome then ["forceOrder"] else []) ++
  (if (parseOrderUpd j).isSome then ["orderTradeUpdate"] else []) ++
  (if (parseErrMsg j).isSome then ["error"] else [])

/-- serde's diagnostic when no untagged variant matches. -/
def noMatchMsg : String :=
  "data did not match any variant of untagged enum ServerMessage"

/-! ## WebSocket errors and recv (src/errors.rs, src/ws/client.rs) -/

/-- The `WSErrors` variants reached by the embedded operations
(src/errors.rs lines 71-114).  Close codes are the u16 protocol codes. -/
inductive WSErr
  | WsClosed (code : Nat) (reason : String)
  | WsStreamEnded
  | WsConnectionTimeout
  | WsHandshakeFailed (debug : String)
  | WsUpgradeError (e : String)
  deriving DecidableEq

/-- One item of the underlying websocket stream: a transport-level
message (`reqwest_websocket::Message`) or a transport error item. -/
inductive Frame
  | text (s : String)
  | binary (bytes : List Nat)
  | close (code : Nat) (reason : String)
  | ping
  | pong
  | transportErr (e : String)
  deriving DecidableEq

/-- The classification step of `recv` on a text frame (src/ws/client.rs
lines 331-340): run `serde_json::from_str::<ServerMessage>`, folding any
failure into `Unknown(error, text)`.  `pt` is the JSON syntax parser of
the serde frontend, abstracted (`.error e` = syntax error with message
`e`). -/
def classifyText (pt : String → Except String Json) (text : String) :
    ServerMessage :=
  match pt text with
  | .error e => .Unknown e text
  | .ok j =>
    match classifyJson j with
    | some m => m
    | none => .Unknown noMatchMsg text

/-- The classification step of `recv` on a binary frame (src/ws/client.rs
lines 341-351): parse the bytes, render them lossily as UTF-8 for the
diagnostic text.  `pb` and `lossy` abstract `serde_json::from_slice` and
`String::from_utf8_lossy`. -/
def classifyBin (pb : List Nat → Except String Json)
    (lossy : List Nat → String) (bytes : List Nat) : ServerMessage :=
  match pb bytes with
  | .error e => .Unknown e (lossy bytes)
  | .ok j =>
    match classifyJson j with
    | some m => m
    | none => .Unknown noMatchMsg (lossy bytes)

/-- `WebsocketHandle::recv` (src/ws/client.rs lines 326-360) over the
remaining stream items: text and binary frames return the classified
message, a close frame returns `WsClosed` with its code and reason, a
transport error item propagates, other frames are skipped, and stream
exhaustion returns `WsStreamEnded`. -/
def recv (pt : String → Except String Json)
    (pb : List Nat → Except String Json) (lossy : List Nat → String) :
    List Frame → Except WSErr ServerMessage
  | [] => .error .WsStreamEnded
  | .text s :: _ => .ok (classifyText pt s)
  | .binary b :: _ => .ok (classifyBin pb lossy b)
  | .close code reason :: _ => .error (.WsClosed code reason)
  | .transportErr e :: _ => .error (.WsUpgradeError e)
  | .ping :: rest => recv pt pb lossy rest
  | .pong :: rest => recv pt pb lossy rest

/-- Which side of the `select!` race in `wait_for_connected` finished
first: the timer, or `recv()` with its result. -/
inductive RaceOutcome
  | timeout
  | received (r : Except WSErr ServerMessage)

/-- `WebsocketHandle::wait_for_connected` (src/ws/client.rs lines
197-223): a status message whose status equals `"connected"` succeeds;
any other received message fails with `WsHandshakeFailed` carrying its
debug rendering (`render` abstracts the derived `Debug` format); a recv
error propagates; the timer firing first fails with
`WsConnectionTimeout`. -/
def wait_for_connected (render : ServerMessage → String) :
    RaceOutcome → Except WSErr Unit
  | .timeout => .error .WsConnectionTimeout
  | .received (.error e) => .error e
  | .received (.ok m) =>
    match m with
    | .Tagged (.Status s) =>
      if s.status = "connected" then .ok ()
      else .error (.WsHandshakeFailed (render m))
    | _ => .error (.WsHandshakeFailed (render m))

/-! ## Concrete sample frames (the documented shapes, from the
repository's tests in src/ws/models.rs) -/

/-- The `depthUpdate` sample. -/
def depthSample : Json :=
  .obj [("e", .str "depthUpdate"), ("E", .num 1234567890),
        ("T", .num 1234567890), ("s", .str "BTCUSDT"), ("U", .num 100),
        ("u", .num 200), ("pu", .num 99),
        ("b", .arr [.arr [.str "50000.00", .str "1.5"]]),
        ("a", .arr [.arr [.str "50001.00", .str "2.0"]]),
        ("mt", .str "s")]

/-- The `aggTrade` sample. -/
def aggSample : Json :=
  .obj [("e", .str "aggTrade"), ("E", .num 1234567890),
        ("s", .str "BTCUSDT"), ("a", .num 12345), ("p", .str "50000.00"),
        ("q", .str "1.5"), ("f", .num 100), ("l", .num 105),
        ("T", .num 1234567890), ("m", .bool true), ("th", .str "0xabc123"),
        ("ua", .str "0xdef456"), ("oi", .num 999), ("mk", .bool true),
        ("ff", .bool false), ("lq", .bool false), ("fe", .str "0.001"),
        ("nf", .str "0.001"), ("fa", .str "USDT"), ("sd", .str "BUY")]

/-- The `bookTicker` sample. -/
def bookSample : Json :=
  .obj [("e", .str "bookTicker"), ("u", .num 12345), ("E", .num 1234567890),
        ("T", .num 1234567890), ("s", .str "ETHUSDT"), ("b", .str "3000.00"),
        ("B", .str "10.5"), ("a", .str "3001.00"), ("A", .str "8.2"),
        ("mt", .str "u")]

/-- The `markPriceUpdate` sample. -/
def markSample : Json :=
  .obj [("e", .str "markPriceUpdate"), ("E", .num 1234567890),
        ("s", .str "BTCUSDT"), ("p", .str "50000.00"), ("i", .str "49999.00"),
        ("r", .str "0.0001")]

/-- The `liquidation` sample. -/
def forceSample : Json :=
  .obj [("e", .str "liquidation"), ("E", .num 1234567890),
        ("o", .obj [("s", .str "BTCUSDT"), ("S", .str "SELL"),
                    ("o", .str "LIMIT"), ("f", .str "IOC"),
                    ("p", .str "49000.00"), ("ap", .str "49000.00"),
                    ("X", .str "FILLED"), ("l", .str "1.0"),
                    ("T", .num 1234567890), ("th", .str "0xabc"),
                    ("ua", .str "0xdef"), ("oi", .num 123),
                    ("ti", .num 456)])]

/-- The `orderTradeUpdate` sample. -/
def orderUpdSample : Json :=
  .obj [("e", .str "orderTradeUpdate"), ("E", .num 1234567890),
        ("o", .obj [("s", .str "BTCUSDT"), ("i", .num 12345),
                    ("X", .str "NEW"), ("x", .str "NEW"),
                    ("T", .num 1234567890), ("th", .str "0xabc"),
                    ("ua", .str "0xdef"), ("S", .str "BUY"),
                    ("o", .str "LIMIT"), ("f", .str "GTC"),
                    ("p", .str "50000.00"), ("q", .str "1.0")])]

/-- The `status` handshake sample. -/
def statusSample : Json :=
  .obj [("e", .str "status"), ("E", .num 1234567890),
        ("status", .str "connected"), ("clientId", .str "client-123")]

/-- The `pong` sample. -/
def pongSample : Json :=
  .obj [("e", .str "pong"), ("id", .num 42), ("E", .num 1234567890)]

/-- The tagged `error` sample. -/
def errTaggedSample : Json :=
  .obj [("e", .str "error"), ("id", .num 1), ("E", .num 1234567890),
        ("error", .obj [("code", .num (-1004)),
                        ("msg", .str "Invalid subscription format")])]

/-- The bare order-error sample (no `e` tag). -/
def errBareSample : Json :=
  .obj [("id", .num 2), ("E", .num 1234567890),
        ("error", .obj [("code", .num (-2010)),
                        ("msg", .str "Transaction execution unsuccessful")])]

/-- The `subscribe` result sample. -/
def subSample : Json :=
  .obj [("e", .str "subscribe"), ("id", .num 5), ("E", .num 1234567890),
        ("result", .str "success")]

/-- The `unsubscribe` result sample. -/
def unsubSample : Json :=
  .obj [("e", .str "unsubscribe"), ("id", .num 6), ("E", .num 1234567890),
        ("result", .str "success")]

/-- The `list_subscriptions` result sample. -/
def listSample : Json :=
  .obj [("e", .str "list_subscriptions"), ("id", .num 7),
        ("E", .num 1234567890),
        ("result", .arr [.str "btcusdt@depth10", .str "ethusdt@aggTrade"])]

/-! ## Concrete inputs used by the witnesses -/

/-- A concrete call message. -/
def msg0 : CallMessage := ⟨[1, 2]⟩

/-- A concrete keypair secret. -/
def kp0 : Keypair := ⟨[7]⟩

/-- A concrete 32-byte chain hash. -/
def h32a : List Nat := List.replicate 32 0

/-- A second 32-byte chain hash differing from `h32a` in its first byte. -/
def h32b : List Nat := 1 :: List.replicate 31 0

/-- The unsigned transaction `build_transaction` produces from
`msg0`, fee 7, chain id 1, clock reading 5 ns. -/
def tx0 : UnsignedTransaction :=
  { runtime_call := .Exchange msg0
    uniqueness := .Generation 0
    details := { chain_id := 1, max_fee := 7, gas_limit := none
                 max_priority_fee_bips := 0 } }

/-- The `Version0` payload `sign_transaction` with `toyScheme` produces
from `tx0`, `kp0` and `h32a`. -/
def v0 : Version0 :=
  { runtime_call := tx0.runtime_call
    uniqueness := tx0.uniqueness
    details := tx0.details
    pub_key := List.replicate 32 0
    signature := enc (borshUnsigned tx0 ++ h32a) :: List.replicate 63 0 }

/-- The unsigned-transaction value `build_transaction` yields on success:
fields assembled per src/transactions.rs lines 29-45. -/
def builtTx (chain_id nanos : Nat) (call_msg : CallMessage)
    (max_fee : Nat) : UnsignedTransaction :=
  { runtime_call := .Exchange call_msg
    uniqueness := .Generation ((nanos / 1000000) % 2 ^ 64)
    details := { chain_id := chain_id, max_fee := max_fee
                 gas_limit := none, max_priority_fee_bips := 0 } }

/-- The `Version0` value `sign_transaction` yields on success (signature
over the borsh bytes plus the chain hash, public key attached). -/
def signedV0 (S : SigScheme) (chain_hash : List Nat)
    (tx : UnsignedTransaction) (kp : Keypair) : Version0 :=
  { runtime_call := tx.runtime_call
    uniqueness := tx.uniqueness
    details := tx.details
    pub_key := kp.public_key S
    signature := kp.sign S (borshUnsigned tx ++ chain_hash) }

/-- A schema `chain_hash` string with `"0x"` embedded mid-string whose
remainder decodes to 32 bytes. -/
def embeddedHexInput : String :=
  "aaaa0xaaaaaaaaaaaaaaaaaaaaaaaaaaaaaaaaaaaaaaaaaaaaaaaaaaaaaaaaaaaa"

/-! ## Helper lemmas -/

theorem enc_ne_zero (a : Nat) (l : List Nat) : enc (a :: l) ≠ 0 := by
  intro h
  rcases Nat.mul_eq_zero.mp h with h2 | h2
  · have hp : 0 < 2 ^ a := Nat.pos_pow_of_pos a (by norm_num)
    omega
  · omega

theorem pow2_odd_inj : ∀ a b x y : Nat,
    2 ^ a * (2 * x + 1) = 2 ^ b * (2 * y + 1) → a = b ∧ x = y := by
  intro a
  induction a with
  | zero =>
    intro b x y h
    cases b with
    | zero => simp at h; omega
    | succ b' =>
      exfalso
      have h2 : 2 * x + 1 = 2 * (2 ^ b' * (2 * y + 1)) := by
        calc 2 * x + 1 = 2 ^ 0 * (2 * x + 1) := by ring
        _ = 2 ^ (b' + 1) * (2 * y + 1) := h
        _ = 2 * (2 ^ b' * (2 * y + 1)) := by ring
      omega
  | succ a' ih =>
    intro b x y h
    cases b with
    | zero =>
      exfalso
      have h2 : 2 * (2 ^ a' * (2 * x + 1)) = 2 * y + 1 := by
        calc 2 * (2 ^ a' * (2 * x + 1)) = 2 ^ (a' + 1) * (2 * x + 1) := by ring
        _ = 2 ^ 0 * (2 * y + 1) := h
        _ = 2 * y + 1 := by ring
      omega
    | succ b' =>
      have h2 : 2 * (2 ^ a' * (2 * x + 1)) = 2 * (2 ^ b' * (2 * y + 1)) := by
        calc 2 * (2 ^ a' * (2 * x + 1)) = 2 ^ (a' + 1) * (2 * x + 1) := by ring
        _ = 2 ^ (b' + 1) * (2 * y + 1) := h
        _ = 2 * (2 ^ b' * (2 * y + 1)) := by ring
      obtain ⟨ha, hx⟩ := ih b' x y (Nat.eq_of_mul_eq_mul_left (by norm_num) h2)
      exact ⟨by omega, hx⟩

theorem enc_inj : ∀ l1 l2 : List Nat, enc l1 = enc l2 → l1 = l2 := by
  intro l1
  induction l1 with
  | nil =>
    intro l2 h
    cases l2 with
    | nil => rfl
    | cons b m => exact absurd h.symm (enc_ne_zero b m)
  | cons a l ih =>
    intro l2 h
    cases l2 with
    | nil => exact absurd h (enc_ne_zero a l)
    | cons b m =>
      simp only [enc] at h
      obtain ⟨hab, he⟩ := pow2_odd_inj a b (enc l) (enc m) h
      rw [hab, ih m he]

theorem toy_binding : Binding toyScheme := by
  intro pk m m' sig h1 h2
  simp only [toyScheme, decide_eq_true_eq] at h1 h2
  rw [h1] at h2
  simp only [List.cons.injEq] at h2
  exact enc_inj m m' h2.1

/-! ## Claim theorems: signing pipeline -/

/-- C1: for every call message, max_fee, keypair and 32-byte chain hash,
`build_transaction` followed by `sign_transaction` yields a
`SignedTransaction::V0` whose 64-byte signature verifies under its
32-byte `pub_key` over `borsh-encode(unsigned) ++ chain_hash`, where
`pub_key` is the keypair's public key. -/
theorem build_sign_verifies (S : SigScheme) (chain_id nanos : Nat)
    (call_msg : CallMessage) (max_fee : Nat) (keypair : Keypair)
    (chain_hash : List Nat) (hlen : chain_hash.length = 32) :
    ∃ tx v,
      build_transaction chain_id (some nanos) call_msg max_fee = .ok tx ∧
      sign_transaction S chain_hash tx keypair = .ok (.V0 v) ∧
      v.signature.length = 64 ∧
      v.pub_key.length = 32 ∧
      v.pub_key = keypair.public_key S ∧
      S.verify v.pub_key (borshUnsigned tx ++ chain_hash) v.signature = true := by
  refine ⟨builtTx chain_id nanos call_msg max_fee,
          signedV0 S chain_hash (builtTx chain_id nanos call_msg max_fee) keypair,
          rfl, ?_, ?_, ?_, rfl, ?_⟩
  · simp [sign_transaction, signedV0, Keypair.sign, Keypair.public_key,
          S.sign_length, S.pubkey_length]
  · simp [signedV0, Keypair.sign, S.sign_length]
  · simp [signedV0, Keypair.public_key, S.pubkey_length]
  · simp [signedV0, Keypair.sign, Keypair.public_key, S.sign_verifies]

/-- Witness for C1: the pipeline at a concrete scheme, call, fee, keypair
and chain hash. -/
theorem build_sign_verifies_witness :
    h32a.length = 32 ∧
    (∃ tx v,
      build_transaction 1 (some 5) msg0 7 = .ok tx ∧
      sign_transaction toyScheme h32a tx kp0 = .ok (.V0 v) ∧
      v.signature.length = 64 ∧
      v.pub_key.length = 32 ∧
      v.pub_key = kp0.public_key toyScheme ∧
      toyScheme.verify v.pub_key (borshUnsigned tx ++ h32a) v.signature = true) :=
  ⟨by decide, build_sign_verifies toyScheme 1 5 msg0 7 kp0 h32a (by decide)⟩

/-- C2: holding the transaction and keypair fixed, a signature produced by
`sign_transaction` that verifies over `borsh-encode(unsigned) ++ chain_hash`
does not verify over `borsh-encode(unsigned) ++ chain_hash'` for any
32-byte hash differing from the original (the scheme being
message-binding, as Ed25519 verification is). -/
theorem sign_domain_separation (S : SigScheme) (hbind : Binding S)
    (tx : UnsignedTransaction) (keypair : Keypair) (v : Version0)
    (h h' : List Nat) (hlen : h.length = 32) (hlen' : h'.length = 32)
    (hne : h ≠ h')
    (hs : sign_transaction S h tx keypair = .ok (.V0 v))
    (hv : S.verify v.pub_key (borshUnsigned tx ++ h) v.signature = true) :
    S.verify v.pub_key (borshUnsigned tx ++ h') v.signature = false := by
  cases hb : S.verify v.pub_key (borshUnsigned tx ++ h') v.signature with
  | false => rfl
  | true =>
    have heq : borshUnsigned tx ++ h = borshUnsigned tx ++ h' :=
      hbind v.pub_key _ _ v.signature hv hb
    exact absurd (List.append_cancel_left heq) hne

set_option maxRecDepth 100000 in
/-- Witness for C2: concrete transaction, keypair and two 32-byte hashes
differing in their first byte. -/
theorem sign_domain_separation_witness :
    Binding toyScheme ∧ h32a.length = 32 ∧ h32b.length = 32 ∧ h32a ≠ h32b ∧
    sign_transaction toyScheme h32a tx0 kp0 = .ok (.V0 v0) ∧
    toyScheme.verify v0.pub_key (borshUnsigned tx0 ++ h32a) v0.signature = true ∧
    toyScheme.verify v0.pub_key (borshUnsigned tx0 ++ h32b) v0.signature = false :=
  ⟨toy_binding, by decide, by decide, by decide, by decide, by decide,
   sign_domain_separation toyScheme toy_binding tx0 kp0 v0 h32a h32b
     (by decide) (by decide) (by decide) (by decide) (by decide)⟩

/-- C9: `build_transaction` fails exactly when the clock reads before the
UNIX epoch, with `SystemTimeError` as the only error; on success the
uniqueness token is the clock reading in whole milliseconds as a 64-bit
value. -/
theorem build_transaction_clock_spec :
    ∀ (chain_id : Nat) (clock : Option Nat) (call_msg : CallMessage)
      (max_fee : Nat),
      (build_transaction chain_id clock call_msg max_fee
          = .error .SystemTimeError ↔ clock = none) ∧
      (∀ e, build_transaction chain_id clock call_msg max_fee = .error e →
        e = .SystemTimeError) ∧
      (∀ nanos tx, clock = some nanos →
        build_transaction chain_id clock call_msg max_fee = .ok tx →
        tx.uniqueness = .Generation ((nanos / 1000000) % 2 ^ 64)) := by
  intro chain_id clock call_msg max_fee
  refine ⟨?_, ?_, ?_⟩
  · cases clock <;> simp [build_transaction]
  · intro e he
    cases clock <;> simp [build_transaction] at he
    exact he.symm
  · intro nanos tx hc htx
    subst hc
    simp only [build_transaction, Except.ok.injEq] at htx
    rw [← htx]

/-! ## Claim theorems: chain-hash parsing and handshake -/

set_option maxRecDepth 4000 in
/-- C10: `TradingApi::new` removes every `"0x"` occurrence anywhere in the
schema's `chain_hash` string — not only a leading prefix — before
hex-decoding: an input with `"0x"` embedded mid-string (which is not
itself valid hex) whose remainder decodes to 32 bytes is accepted, while
any string whose post-removal decode is missing or not exactly 32 bytes
is rejected with `InvalidChainHash`. -/
theorem chain_hash_replace_spec :
    (∃ bs, parse_chain_hash embeddedHexInput = .ok bs ∧ bs.length = 32) ∧
    hexDecode embeddedHexInput = none ∧
    (∀ s bs, hexDecodeList (remove0x s.data) = some bs → bs.length ≠ 32 →
      isChainHashErr (parse_chain_hash s) = true) ∧
    (∀ s, hexDecodeList (remove0x s.data) = none →
      isChainHashErr (parse_chain_hash s) = true) := by
  refine ⟨⟨List.replicate 32 170, by decide, by decide⟩, by decide, ?_, ?_⟩
  · intro s bs h hne
    simp [parse_chain_hash, h, hne, isChainHashErr]
  · intro s h
    simp [parse_chain_hash, h, isChainHashErr]

/-- C3: the handshake wait succeeds exactly when the race is won by a
received tagged status message whose status equals `"connected"`; any
other received message yields `WsHandshakeFailed` carrying its debug
rendering, and the timer winning yields `WsConnectionTimeout`. -/
theorem wait_for_connected_spec :
    ∀ (render : ServerMessage → String) (o : RaceOutcome),
      (wait_for_connected render o = .ok () ↔
        ∃ s, o = .received (.ok (.Tagged (.Status s))) ∧
          s.status = "connected") ∧
      (∀ m, o = .received (.ok m) → wait_for_connected render o ≠ .ok () →
        wait_for_connected render o = .error (.WsHandshakeFailed (render m))) ∧
      (o = .timeout → wait_for_connected render o = .error .WsConnectionTimeout) := by
  intro render o
  refine ⟨⟨?_, ?_⟩, ?_, ?_⟩
  · intro h
    match o with
    | .timeout => simp [wait_for_connected] at h
    | .received (.error e) => simp [wait_for_connected] at h
    | .received (.ok (.Tagged (.Status s))) =>
      by_cases hc : s.status = "connected"
      · exact ⟨s, rfl, hc⟩
      · simp [wait_for_connected, hc] at h
    | .received (.ok (.Tagged (.Pong m))) => simp [wait_for_connected] at h
    | .received (.ok (.Tagged (.Error m))) => simp [wait_for_connected] at h
    | .received (.ok (.Tagged (.Subscribe m))) => simp [wait_for_connected] at h
    | .received (.ok (.Tagged (.Unsubscribe m))) => simp [wait_for_connected] at h
    | .received (.ok (.Tagged (.ListSubscriptions m))) =>
      simp [wait_for_connected] at h
    | .received (.ok (.DepthUpdate m)) => simp [wait_for_connected] at h
    | .received (.ok (.AggTrade m)) => simp [wait_for_connected] at h
    | .received (.ok (.BookTicker m)) => simp [wait_for_connected] at h
    | .received (.ok (.MarkPrice m)) => simp [wait_for_connected] at h
    | .received (.ok (.ForceOrder m)) => simp [wait_for_connected] at h
    | .received (.ok (.OrderUpdate m)) => simp [wait_for_connected] at h
    | .received (.ok (.Error m)) => simp [wait_for_connected] at h
    | .received (.ok (.Unknown e r)) => simp [wait_for_connected] at h
  · rintro ⟨s, rfl, hs⟩
    simp [wait_for_connected, hs]
  · intro m hm hne
    subst hm
    match m with
    | .Tagged (.Status s) =>
      by_cases hc : s.status = "connected"
      · exact absurd (by simp [wait_for_connected, hc]) hne
      · simp [wait_for_connected, hc]
    | .Tagged (.Pong m) => rfl
    | .Tagged (.Error m) => rfl
    | .Tagged (.Subscribe m) => rfl
    | .Tagged (.Unsubscribe m) => rfl
    | .Tagged (.ListSubscriptions m) => rfl
    | .DepthUpdate m => rfl
    | .AggTrade m => rfl
    | .BookTicker m => rfl
    | .MarkPrice m => rfl
    | .ForceOrder m => rfl
    | .OrderUpdate m => rfl
    | .Error m => rfl
    | .Unknown e r => rfl
  · intro h
    subst h
    rfl

/-! ## Claim theorems: recv and message classification -/

/-- C4: classification in `recv` is total: a text or binary frame always
yields `Ok` with some `ServerMessage`, and any parse failure — a syntax
error or no matching variant — yields `Unknown` carrying the diagnostic
and the original frame text, never an error. -/
theorem recv_classification_total :
    ∀ (pt : String → Except String Json) (pb : List Nat → Except String Json)
      (lossy : List Nat → String) (s : String) (b : List Nat)
      (rest : List Frame),
      (∃ m, recv pt pb lossy (.text s :: rest) = .ok m) ∧
      (∃ m, recv pt pb lossy (.binary b :: rest) = .ok m) ∧
      (∀ e, pt s = .error e →
        recv pt pb lossy (.text s :: rest) = .ok (.Unknown e s)) ∧
      (∀ j, pt s = .ok j → classifyJson j = none →
        recv pt pb lossy (.text s :: rest) = .ok (.Unknown noMatchMsg s)) ∧
      (∀ e, pb b = .error e →
        recv pt pb lossy (.binary b :: rest) = .ok (.Unknown e (lossy b))) ∧
      (∀ j, pb b = .ok j → classifyJson j = none →
        recv pt pb lossy (.binary b :: rest)
          = .ok (.Unknown noMatchMsg (lossy b))) := by
  intro pt pb lossy s b rest
  refine ⟨⟨_, rfl⟩, ⟨_, rfl⟩, ?_, ?_, ?_, ?_⟩
  · intro e he
    simp [recv, classifyText, he]
  · intro j hj hc
    simp [recv, classifyText, hj, hc]
  · intro e he
    simp [recv, classifyBin, he]
  · intro j hj hc
    simp [recv, classifyBin, hj, hc]

/-- C7: a close frame always yields `WsClosed` carrying its protocol code
and reason; the stream ending without a close frame always yields the
distinct `WsStreamEnded`; `WsClosed` arises only from an actual close
frame, and the two error kinds are never equal. -/
theorem recv_close_versus_stream_end :
    ∀ (pt : String → Except String Json) (pb : List Nat → Except String Json)
      (lossy : List Nat → String),
      (∀ code reason rest,
        recv pt pb lossy (.close code reason :: rest)
          = .error (.WsClosed code reason)) ∧
      (recv pt pb lossy [] = .error .WsStreamEnded) ∧
      (∀ l, (∀ f ∈ l, f = .ping ∨ f = .pong) →
        recv pt pb lossy l = .error .WsStreamEnded) ∧
      (∀ l code reason,
        recv pt pb lossy l = .error (.WsClosed code reason) →
        Frame.close code reason ∈ l) ∧
      (∀ code reason, WSErr.WsClosed code reason ≠ .WsStreamEnded) := by
  intro pt pb lossy
  refine ⟨fun c r rest => rfl, rfl, ?_, ?_, fun c r h => by cases h⟩
  · intro l h
    induction l with
    | nil => rfl
    | cons f rest ih =>
      rcases h f (List.mem_cons_self f rest) with rfl | rfl <;>
        exact ih fun g hg => h g (List.mem_cons_of_mem _ hg)
  · intro l code reason h
    induction l with
    | nil => simp [recv] at h
    | cons f rest ih =>
      cases f with
      | text s => simp [recv] at h
      | binary b => simp [recv] at h
      | close c' r' =>
        simp only [recv, Except.error.injEq, WSErr.WsClosed.injEq] at h
        obtain ⟨rfl, rfl⟩ := h
        exact List.mem_cons_self _ _
      | ping => exact List.mem_cons_of_mem _ (ih h)
      | pong => exact List.mem_cons_of_mem _ (ih h)
      | transportErr e => simp [recv] at h

/-- Counterexample to C6: the tagged error frame of the repository's own
tests is matched by two distinct variants of the taxonomy — the tagged
form and the bare untagged error form. -/
theorem taxonomy_overlap_ce :
    (parseTagged errTaggedSample).isSome = true ∧
    (parseErrMsg errTaggedSample).isSome = true ∧
    matchedVariants errTaggedSample = ["tagged", "error"] ∧
    (matchedVariants errTaggedSample).length ≠ 1 := by
  refine ⟨by decide, by decide, by decide, by decide⟩

/-- C6 (amended): a frame may be matchable by more than one variant of
the taxonomy; the classifier's choice is nevertheless unique because it
returns exactly the first matching variant in the declared order. -/
theorem classify_first_match (j : Json) :
    (classifyJson j).map variantName = (matchedVariants j).head? := by
  unfold classifyJson matchedVariants
  cases parseTagged j with
  | some t => simp [variantName]
  | none =>
  simp only [Option.isSome_none, Bool.false_eq_true, if_false, List.nil_append]
  cases parseDepth j with
  | some m => simp [variantName]
  | none =>
  simp only [Option.isSome_none, Bool.false_eq_true, if_false, List.nil_append]
  cases parseAgg j with
  | some m => simp [variantName]
  | none =>
  simp only [Option.isSome_none, Bool.false_eq_true, if_false, List.nil_append]
  cases parseBook j with
  | some m => simp [variantName]
  | none =>
  simp only [Option.isSome_none, Bool.false_eq_true, if_false, List.nil_append]
  cases parseMark j with
  | some m => simp [variantName]
  | none =>
  simp only [Option.isSome_none, Bool.false_eq_true, if_false, List.nil_append]
  cases parseForce j with
  | some m => simp [variantName]
  | none =>
  simp only [Option.isSome_none, Bool.false_eq_true, if_false, List.nil_append]
  cases parseOrderUpd j with
  | some m => simp [variantName]
  | none =>
  simp only [Option.isSome_none, Bool.false_eq_true, if_false, List.nil_append]
  cases parseErrMsg j with
  | some m => simp [variantName]
  | none => simp

set_option maxRecDepth 4000 in
/-- C5: classification attempts the tagged forms first, then the untagged
market-data shapes in order, then the bare untagged error shape; every
well-formed sample of each documented shape classifies to its expected
variant with matching fields. -/
theorem classify_order_and_samples :
    (∀ j t, parseTagged j = some t → classifyJson j = some (.Tagged t)) ∧
    (∀ j m, parseTagged j = none → parseDepth j = some m →
      classifyJson j = some (.DepthUpdate m)) ∧
    (∀ j m, parseTagged j = none → parseDepth j = none →
      parseAgg j = some m → classifyJson j = some (.AggTrade m)) ∧
    (∀ j m, parseTagged j = none → parseDepth j = none → parseAgg j = none →
      parseBook j = some m → classifyJson j = some (.BookTicker m)) ∧
    (∀ j m, parseTagged j = none → parseDepth j = none → parseAgg j = none →
      parseBook j = none → parseMark j = some m →
      classifyJson j = some (.MarkPrice m)) ∧
    (∀ j m, parseTagged j = none → parseDepth j = none → parseAgg j = none →
      parseBook j = none → parseMark j = none → parseForce j = some m →
      classifyJson j = some (.ForceOrder m)) ∧
    (∀ j m, parseTagged j = none → parseDepth j = none → parseAgg j = none →
      parseBook j = none → parseMark j = none → parseForce j = none →
      parseOrderUpd j = some m → classifyJson j = some (.OrderUpdate m)) ∧
    (∀ j m, parseTagged j = none → parseDepth j = none → parseAgg j = none →
      parseBook j = none → parseMark j = none → parseForce j = none →
      parseOrderUpd j = none → parseErrMsg j = some m →
      classifyJson j = some (.Error m)) ∧
    (∃ a, classifyJson aggSample = some (.AggTrade a) ∧
      a.symbol = "BTCUSDT" ∧ a.price = "50000.00" ∧ a.is_buyer_maker = true) ∧
    (∃ d, classifyJson depthSample = some (.DepthUpdate d) ∧
      d.symbol = "BTCUSDT" ∧ d.bids = [("50000.00", "1.5")] ∧
      d.asks = [("50001.00", "2.0")]) ∧
    (∃ bt, classifyJson bookSample = some (.BookTicker bt) ∧
      bt.symbol = "ETHUSDT" ∧ bt.best_bid_price = "3000.00" ∧
      bt.best_ask_price = "3001.00") ∧
    (∃ mp, classifyJson markSample = some (.MarkPrice mp) ∧
      mp.symbol = "BTCUSDT" ∧ mp.mark_price = "50000.00" ∧
      mp.funding_rate = "0.0001") ∧
    (∃ f, classifyJson forceSample = some (.ForceOrder f) ∧
      f.order.symbol = "BTCUSDT" ∧ f.order.side = "SELL") ∧
    (∃ o, classifyJson orderUpdSample = some (.OrderUpdate o) ∧
      o.event_time = 1234567890) ∧
    (∃ st, classifyJson statusSample = some (.Tagged (.Status st)) ∧
      st.status = "connected" ∧ st.client_id = "client-123" ∧
      st.event_time = 1234567890) ∧
    (∃ p, classifyJson pongSample = some (.Tagged (.Pong p)) ∧
      p.id = some 42) ∧
    (∃ em, classifyJson errTaggedSample = some (.Tagged (.Error em)) ∧
      em.id = some 1 ∧ em.error.code = -1004) ∧
    (∃ eb, classifyJson errBareSample = some (.Error eb) ∧
      eb.id = some 2 ∧ eb.error.code = -2010) ∧
    (∃ sm, classifyJson subSample = some (.Tagged (.Subscribe sm)) ∧
      sm.id = some 5 ∧ sm.result = "success") ∧
    (∃ um, classifyJson unsubSample = some (.Tagged (.Unsubscribe um)) ∧
      um.id = some 6) ∧
    (∃ lm, classifyJson listSample = some (.Tagged (.ListSubscriptions lm)) ∧
      lm.result = ["btcusdt@depth10", "ethusdt@aggTrade"]) := by
  refine ⟨?_, ?_, ?_, ?_, ?_, ?_, ?_, ?_,
          ⟨_, rfl, rfl, rfl, rfl⟩, ⟨_, rfl, rfl, rfl, rfl⟩,
          ⟨_, rfl, rfl, rfl, rfl⟩, ⟨_, rfl, rfl, rfl, rfl⟩,
          ⟨_, rfl, rfl, rfl⟩, ⟨_, rfl, rfl⟩, ⟨_, rfl, rfl, rfl, rfl⟩,
          ⟨_, rfl, rfl⟩, ⟨_, rfl, rfl, rfl⟩, ⟨_, rfl, rfl, rfl⟩,
          ⟨_, rfl, rfl, rfl⟩, ⟨_, rfl, rfl⟩, ⟨_, rfl, rfl⟩⟩
  · intro j t h
    simp [classifyJson, h]
  · intro j m h1 h2
    simp [classifyJson, h1, h2]
  · intro j m h1 h2 h3
    simp [classifyJson, h1, h2, h3]
  · intro j m h1 h2 h3 h4
    simp [classifyJson, h1, h2, h3, h4]
  · intro j m h1 h2 h3 h4 h5
    simp [classifyJson, h1, h2, h3, h4, h5]
  · intro j m h1 h2 h3 h4 h5 h6
    simp [classifyJson, h1, h2, h3, h4, h5, h6]
  · intro j m h1 h2 h3 h4 h5 h6 h7
    simp [classifyJson, h1, h2, h3, h4, h5, h6, h7]
  · intro j m h1 h2 h3 h4 h5 h6 h7 h8
    simp [classifyJson, h1, h2, h3, h4, h5, h6, h7, h8]

/-! ## Claim theorems: topic canonicalization -/

theorem strDataApp (a b : String) : (a ++ b).data = a.data ++ b.data := rfl

theorem strOfData {s1 s2 : String} (h : s1.data = s2.data) : s1 = s2 := by
  cases s1
  cases s2
  exact congrArg String.mk h

theorem isPref_self_app : ∀ A k : List Char, isPref A (A ++ k) = true := by
  intro A
  induction A with
  | nil => intro k; rfl
  | cons a p ih => intro k; simp [isPref, ih]

theorem clash {A B x y : List Char} (h : A ++ x = B ++ y)
    (hAB : isPref A B = false) (hBA : isPref B A = false) : False := by
  rcases List.append_eq_append_iff.mp h with ⟨k, hk, _⟩ | ⟨k, hk, _⟩
  · rw [hk, isPref_self_app] at hAB
    exact absurd hAB (by simp)
  · rw [hk, isPref_self_app] at hBA
    exact absurd hBA (by simp)

theorem symEq {A : List Char} {s1 s2 : String}
    (h : A ++ rstr s1 = A ++ rstr s2) : s1 = s2 := by
  have h2 := List.append_cancel_left h
  unfold rstr at h2
  exact strOfData (List.reverse_injective h2)

theorem canonR_agg (s : String) :
    canonR (.AggTrade s) = rAgg ++ rstr s := by
  simp [canonR, Topic.displayStr, strDataApp, List.reverse_append, rAgg, rstr]

theorem canonR_depth (s : String) (d : OrderbookDepth) :
    canonR (.Depth s d) = rDepthSuf d ++ rstr s := by
  simp [canonR, Topic.displayStr, strDataApp, List.reverse_append,
        rDepthSuf, rstr]

theorem canonR_book (s : String) :
    canonR (.BookTicker s) = rBook ++ rstr s := by
  simp [canonR, Topic.displayStr, strDataApp, List.reverse_append, rBook, rstr]

theorem canonR_mark (s : String) :
    canonR (.MarkPrice s) = rMark ++ rstr s := by
  simp [canonR, Topic.displayStr, strDataApp, List.reverse_append, rMark, rstr]

theorem canonR_kline (s : String) (i : KlineInterval) :
    canonR (.Kline s i) = rKlineSuf i ++ rstr s := by
  simp [canonR, Topic.displayStr, strDataApp, List.reverse_append,
        rKlineSuf, rstr]

theorem canonR_force (s : String) :
    canonR (.ForceOrder s) = rForce ++ rstr s := by
  simp [canonR, Topic.displayStr, strDataApp, List.reverse_append, rForce, rstr]

theorem canonR_allT : canonR .AllTickers = rAllT ++ ([] : List Char) := by
  simp [canonR, Topic.displayStr, rAllT]

theorem canonR_allM : canonR .AllMarkPrices = rAllM ++ ([] : List Char) := by
  simp [canonR, Topic.displayStr, rAllM]

theorem canonR_allB : canonR .AllBookTickers = rAllB ++ ([] : List Char) := by
  simp [canonR, Topic.displayStr, rAllB]

theorem canonR_allF : canonR .AllForceOrders = rAllF ++ ([] : List Char) := by
  simp [canonR, Topic.displayStr, rAllF]

theorem displayStr_inj : ∀ t1 t2 : Topic,
    Topic.displayStr t1 = Topic.displayStr t2 → t1 = t2 := by
  intro t1 t2 h0
  have h : canonR t1 = canonR t2 :=
    congrArg (fun s : String => s.data.reverse) h0
  clear h0
  cases t1 <;> cases t2 <;>
    simp only [canonR_agg, canonR_depth, canonR_book, canonR_mark,
      canonR_kline, canonR_force, canonR_allT, canonR_allM, canonR_allB,
      canonR_allF] at h <;>
    first
    | rfl
    | exact (clash h (by decide) (by decide)).elim
    | exact congrArg Topic.AggTrade (symEq h)
    | exact congrArg Topic.BookTicker (symEq h)
    | exact congrArg Topic.MarkPrice (symEq h)
    | exact congrArg Topic.ForceOrder (symEq h)
    | (rename_i a b
       cases b <;> exact (clash h (by decide) (by decide)).elim)
    | (rename_i a b c
       cases b <;> exact (clash h (by decide) (by decide)).elim)
    | (rename_i a b c
       cases c <;> exact (clash h (by decide) (by decide)).elim)
    | (rename_i a b c d
       cases b <;> cases d <;>
         first
         | exact (clash h (by decide) (by decide)).elim
         | exact congrArg (fun s => Topic.Depth s _) (symEq h)
         | exact congrArg (fun s => Topic.Kline s _) (symEq h))

/-- C8: the canonical-string map on topics is a bijection onto its image
— topics are equal exactly when their canonical strings are identical —
and it produces the documented strings on the documented cases. -/
theorem topic_canonical_strings :
    (∀ t1 t2 : Topic, t1 = t2 ↔ t1.displayStr = t2.displayStr) ∧
    Topic.displayStr (Topic.depth "ETH-USD" .D10) = "ETH-USD@depth10" ∧
    Topic.displayStr (Topic.kline "BTC-USD" .H1) = "BTC-USD@kline_1h" ∧
    Topic.displayStr Topic.allTickers = "!ticker@arr" := by
  refine ⟨fun t1 t2 => ⟨fun h => by rw [h], fun h => displayStr_inj t1 t2 h⟩,
          by decide, by decide, by decide⟩
